import Mathlib

/-!
Shallow embedding of the retrieval/resilience core of
`src/weather_forecast_scraper_v0.2.3.py`.

The embedding covers: the two failure trackers (`FAILED_URLS`,
`FAILED_URLS_AERIS`, lines 86-87) and the broken dedup guards that feed them
(lines 485-486, 521-522, 556-557, 616-617); the scrape functions'
try/except error containment (447-621); the initial concurrent wave and the
sequential Aeris scan (639-665); the two retry loops (670-710); and the
single-try output-writing block (713-741).  Site-specific HTML/JSON parsing
is abstracted into a fetch oracle `url -> attempt# -> Option rowcount`
(an exception anywhere in the try-block body is `none`), which is exactly the
boundary the spec draws around the opaque per-source Fetcher.
-/

namespace Weather

/-- The four data sources.  In the Python code a source is identified by the
string tag stored third in each failure tuple ('Wunderground.com',
'Weather.gov', 'Weather.com', 'Aeris') and dispatched on by
`match source:` in the retry loop (lines 676-682). -/
inductive Src where
  | wunderground
  | weatherGov
  | weatherCom
  | aeris
deriving DecidableEq

/-- Python values that occur in the failure-tracker lists.  The trackers hold
3-tuples `(url, loc, source)` but the dedup guards test membership of the bare
`url` string (`if url not in FAILED_URLS:`, lines 485, 521, 556, 616, 688,
709).  Python `in` compares elements with `==`, and a string never compares
equal to a tuple, which the two distinct constructors reproduce. -/
inductive PyVal where
  | str (s : String)
  | tup (url loc : String) (src : Src)
deriving DecidableEq

/-- Lines 485-486 (and 521-522, 556-557): the failure-recording code of the
three page scrape functions,
`if url not in FAILED_URLS: FAILED_URLS.append((url, loc, source))`.
The membership test compares the url string against the stored tuples. -/
def recordFailure (tracker : List PyVal) (url loc : String) (src : Src) : List PyVal :=
  if PyVal.str url ∈ tracker then tracker
  else tracker ++ [PyVal.tup url loc src]

/-- Lines 616-617: the failure-recording code of `scrape_aeris`,
`if url not in FAILED_URLS: FAILED_URLS_AERIS.append((url, loc, 'Aeris'))`.
Note that the guard inspects `FAILED_URLS` (the page-source tracker) while the
append goes to `FAILED_URLS_AERIS`. -/
def recordFailureAeris (failedUrls failedAeris : List PyVal) (url loc : String) :
    List PyVal :=
  if PyVal.str url ∈ failedUrls then failedAeris
  else failedAeris ++ [PyVal.tup url loc Src.aeris]

/-- A pandas DataFrame, reduced to what the core manipulates: whether the 'WS'
(weather-station) column exists, and the WS value of each row.  A failed
scrape yields `pd.DataFrame()` (no columns, no rows, line 457); a successful
scrape tags every row with the job's location (`df['WS'] = loc`). -/
structure DF where
  hasWS : Bool
  ws : List String
deriving DecidableEq

/-- The empty `pd.DataFrame()` a page scrape function returns on failure. -/
def DF.empty : DF := ⟨false, []⟩

/-- Number of rows of a table. -/
def DF.nrows (d : DF) : Nat := d.ws.length

/-- `pd.concat` (lines 715, 722, 728, 734): raises `ValueError` on an empty
list of objects; otherwise the columns are the union of the inputs' columns
and the rows are all input rows. -/
def pdConcat (l : List DF) : Except String DF :=
  match l with
  | [] => Except.error "ValueError: No objects to concatenate"
  | _ => Except.ok ⟨l.any (fun d => d.hasWS), l.flatMap (fun d => d.ws)⟩

/-- Column access `df["WS"]` (lines 718, 725, 731, 737): raises `KeyError`
when the column does not exist. -/
def DF.wsColumn (d : DF) : Except String (List String) :=
  if d.hasWS then Except.ok d.ws else Except.error "KeyError: WS"

/-- An element of `weather_data_aeris_results`: the initial Aeris scan puts
DataFrames in it (line 665), while the Aeris retry loop appends the whole
list returned by `scrape_aeris` as a single element (line 703). -/
inductive AerisItem where
  | df (d : DF)
  | pyList (l : List DF)
deriving DecidableEq

/-- Line 734: `[x for x in weather_data_aeris_results if isinstance(x, pd.DataFrame)]`. -/
def aerisFilter (l : List AerisItem) : List DF :=
  l.filterMap (fun x => match x with | AerisItem.df d => some d | AerisItem.pyList _ => none)

/-- The body of a page scrape function's try block (e.g. lines 459-479 of
`scrape_wunderground`): driver initialization, page load, parsing and WS
tagging.  The fetch outcome `o` abstracts it: `some n` is a parsed table of
`n` rows (then `df['WS'] = loc` tags every row), `none` is any raised
exception. -/
def scrapePageBody (loc : String) (o : Option Nat) : Except String DF :=
  match o with
  | some n => Except.ok ⟨true, List.replicate n loc⟩
  | none => Except.error "ScrapingError"

/-- A page scrape function (`scrape_wunderground` 447-488, `scrape_weather_gov`
490-524, `scrape_weather_com` 526-559): `return_data = pd.DataFrame()`, then a
try/except that on success overwrites `return_data` with the parsed table and
on any exception logs and records the failure.  The function always returns a
DataFrame; it never re-raises.  Returns (return value, new FAILED_URLS). -/
def scrapePage (src : Src) (tracker : List PyVal) (url loc : String) (o : Option Nat) :
    DF × List PyVal :=
  match scrapePageBody loc o with
  | Except.ok df => (df, tracker)
  | Except.error _ => (DF.empty, recordFailure tracker url loc src)

/-- One row of the location roster (`loc_v0.2.xlsx`, line 632): three page
urls plus the location name. -/
structure Row where
  wu : String
  wg : String
  wc : String
  loc : String

/-- The mutable state of a run: the two global failure trackers (lines 86-87),
the per-url attempt counter (a modelling device indexing the fetch oracle),
the four per-source result accumulators, and a trace of tracker snapshots
((FAILED_URLS, FAILED_URLS_AERIS) recorded after every mutation, newest
first). -/
structure RS where
  failedUrls : List PyVal
  failedAeris : List PyVal
  attempts : String → Nat
  wunder : List DF
  gov : List DF
  com : List DF
  aeris : List AerisItem
  trace : List (List PyVal × List PyVal)

/-- Initial state of a run. -/
def initRS : RS := ⟨[], [], fun _ => 0, [], [], [], [], []⟩

/-- Record that `url` has been fetched once more. -/
def RS.bump (s : RS) (url : String) : RS :=
  { s with attempts := fun v => if v = url then s.attempts v + 1 else s.attempts v }

/-- Append the current tracker contents to the snapshot trace. -/
def RS.snap (s : RS) : RS :=
  { s with trace := (s.failedUrls, s.failedAeris) :: s.trace }

/-- Append a scrape result to the results list of its source (lines 642-649
during the wave, 678-682 during the page retry loop).  The page paths are
never invoked with the Aeris tag. -/
def RS.appendDF (s : RS) (src : Src) (df : DF) : RS :=
  match src with
  | Src.wunderground => { s with wunder := s.wunder ++ [df] }
  | Src.weatherGov => { s with gov := s.gov ++ [df] }
  | Src.weatherCom => { s with com := s.com ++ [df] }
  | Src.aeris => s

/-- One page job of the initial wave: fetch, run the scrape function against
the current tracker, append the returned DataFrame to the source's futures
list.  `j = (source, url, loc)`. -/
def waveJob (f : String → Nat → Option Nat) (s : RS) (j : Src × String × String) : RS :=
  let o := f j.2.1 (s.attempts j.2.1)
  let s1 := s.bump j.2.1
  let r := scrapePage j.1 s1.failedUrls j.2.1 j.2.2 o
  (RS.appendDF { s1 with failedUrls := r.2 } j.1 r.1).snap

/-- The job list of the initial wave, in submission order (lines 641-650: for
each roster row, one Wunderground, one Weather.gov and one Weather.com job). -/
def waveJobs (rows : List Row) : List (Src × String × String) :=
  rows.flatMap (fun r =>
    [(Src.wunderground, r.wu, r.loc), (Src.weatherGov, r.wg, r.loc),
     (Src.weatherCom, r.wc, r.loc)])

/-- `scrape_aeris` (561-621): sequential loop over (url, loc) pairs; each
iteration issues one request inside a try/except; success appends the
WS-tagged table to the return list; any exception records the failure in
`FAILED_URLS_AERIS` (after the mis-aimed guard on `FAILED_URLS`).  Returns
(return list, final state). -/
def aerisScan (f : String → Nat → Option Nat) :
    List (String × String) → RS → List DF → List DF × RS
  | [], s, acc => (acc, s)
  | (url, loc) :: rest, s, acc =>
    let o := f url (s.attempts url)
    let s1 := s.bump url
    match o with
    | some n => aerisScan f rest s1.snap (acc ++ [⟨true, List.replicate n loc⟩])
    | none =>
      let s2 := { s1 with
        failedAeris := recordFailureAeris s1.failedUrls s1.failedAeris url loc }
      aerisScan f rest s2.snap acc

/-- One re-scrape of the page retry loop (lines 676-682): re-invoke the scrape
function for the popped job and append whatever it returns (a real table on
success, an empty DataFrame on renewed failure) to that source's results. -/
def pageRescrapeOne (f : String → Nat → Option Nat) (s : RS) (url loc : String)
    (src : Src) : RS :=
  let o := f url (s.attempts url)
  let s1 := s.bump url
  let r := scrapePage src s1.failedUrls url loc o
  RS.appendDF { s1 with failedUrls := r.2 } src r.1

/-- The page-source retry loop (lines 670-691):
`while FAILED_URLS and rescrape_count < 100`, incrementing `rescrape_count`
every iteration, popping the head job and dispatching on its source tag.
The fuel argument is `100 - rescrape_count`, so the loop runs at most 100
iterations by construction (faithful: the increment is on line 672).
A tuple tagged 'Aeris' would match no case of the `match source:` and is
silently dropped; a non-tuple entry never occurs. -/
def pageRetryLoop (f : String → Nat → Option Nat) : Nat → RS → RS
  | 0, s => s
  | Nat.succ n, s =>
    match s.failedUrls with
    | [] => s
    | e :: rest =>
      let s1 := { s with failedUrls := rest }
      let s2 :=
        match e with
        | PyVal.tup url loc Src.wunderground => pageRescrapeOne f s1 url loc Src.wunderground
        | PyVal.tup url loc Src.weatherGov => pageRescrapeOne f s1 url loc Src.weatherGov
        | PyVal.tup url loc Src.weatherCom => pageRescrapeOne f s1 url loc Src.weatherCom
        | PyVal.tup _ _ Src.aeris => s1
        | PyVal.str _ => s1
      pageRetryLoop f n s2.snap

/-- State of the Aeris retry loop (lines 696-710): run state, the
`rescrape_count` variable, and whether the `while` guard has become false
(i.e. the loop has genuinely exited rather than run out of model fuel). -/
structure ALoop where
  s : RS
  count : Nat
  done : Bool

/-- The Aeris retry loop (lines 696-710):
`while FAILED_URLS_AERIS and rescrape_count < 100`.  The body pops the head
job, calls `scrape_aeris([(url, loc)])` — whose result is a Python *list* of
DataFrames — and appends that list as a single element of
`weather_data_aeris_results` (line 703).  Faithful to the source, the body
never increments `rescrape_count`.  `fuel` bounds the model's unrolling only;
`done = true` marks that the guard itself became false. -/
def aerisRetryLoop (f : String → Nat → Option Nat) : Nat → ALoop → ALoop
  | 0, a => a
  | Nat.succ n, a =>
    match a.s.failedAeris with
    | [] => { a with done := true }
    | e :: rest =>
      if a.count < 100 then
        let s0 := { a.s with failedAeris := rest }
        let s1 :=
          match e with
          | PyVal.tup url loc _ =>
            let r := aerisScan f [(url, loc)] s0 []
            { r.2 with aeris := r.2.aeris ++ [AerisItem.pyList r.1] }
          | PyVal.str _ => s0
        aerisRetryLoop f n { a with s := s1 }
      else { a with done := true }

/-- Outcome of the output-writing block: which per-source files were written
(in order), and the exception caught by the single surrounding except, if
any. -/
structure WriteOut where
  files : List Src
  err : Option String
deriving DecidableEq

/-- Saving one source (e.g. lines 714-718): `pd.concat` the results (can
raise `ValueError` on an empty list — then no file is written), write the CSV
file, then log `len(df["WS"].unique())` (can raise `KeyError` when the WS
column does not exist — the file has already been written at that point).
Returns (file written?, exception raised). -/
def saveOne (dfs : List DF) : Bool × Option String :=
  match pdConcat dfs with
  | Except.error e => (false, some e)
  | Except.ok d =>
    match d.wsColumn with
    | Except.error e => (true, some e)
    | Except.ok _ => (true, none)

/-- Sequential processing of the per-source saves inside one try: once an
exception is raised, the remaining sources are skipped (control jumps to the
except clause on line 739). -/
def writeGo : List (Src × List DF) → WriteOut → WriteOut
  | [], w => w
  | (src, dfs) :: rest, w =>
    match w.err with
    | some _ => w
    | none =>
      let r := saveOne dfs
      writeGo rest ⟨w.files ++ (if r.1 then [src] else []), r.2⟩

/-- The output-writing block (lines 713-741): a single try/except around the
four per-source concat/write/log sequences, run in the fixed order
Wunderground, Weather.gov, Weather.com, Aeris.  The first three results lists
contain only DataFrames (every scrape function returns one, so the
`isinstance` filters on 662-664 keep every element); the Aeris list is
filtered by `isinstance(x, pd.DataFrame)` on line 734. -/
def writeBlock (wu gov com : List DF) (ae : List AerisItem) : WriteOut :=
  writeGo
    [(Src.wunderground, wu), (Src.weatherGov, gov), (Src.weatherCom, com),
     (Src.aeris, aerisFilter ae)] ⟨[], none⟩

/-- Input of a run: the location roster, the Aeris (endpoint, location) pairs
(line 654), and the fetch oracle, `url -> attempt index -> outcome`. -/
structure Input where
  rows : List Row
  aerisPairs : List (String × String)
  fetch : String → Nat → Option Nat

/-- The urls of the page jobs of the initial wave. -/
def waveUrls (inp : Input) : List String :=
  (waveJobs inp.rows).map (fun j => j.2.1)

/-- All endpoint urls of a run (three page urls per roster row, plus the
Aeris urls). -/
def allUrls (inp : Input) : List String :=
  waveUrls inp ++ inp.aerisPairs.map (fun p => p.1)

/-- Result of a full run. -/
structure RunResult where
  rs : RS
  aerisDone : Bool
  out : WriteOut

/-- An endpoint url `u` never occurs in a tracker, under any location or
source tag. -/
def noUrl (u : String) (t : List PyVal) : Prop :=
  ∀ l s, PyVal.tup u l s ∉ t

/-- Run-state invariant for endpoint `u`: `u` is absent from both failure
trackers now and in every recorded snapshot. -/
def Inv (u : String) (s : RS) : Prop :=
  noUrl u s.failedUrls ∧ noUrl u s.failedAeris ∧
    ∀ p ∈ s.trace, noUrl u p.1 ∧ noUrl u p.2

/-- The `__main__` flow (628-741): initial wave of page jobs, sequential
Aeris scan, page retry loop (at most 100 iterations), Aeris retry loop
(unrolled up to `aerisFuel` iterations), then the output-writing block.
The concurrent wave is serialized in submission order; which serialization
is taken does not affect any property proved here. -/
def fullRun (inp : Input) (aerisFuel : Nat) : RunResult :=
  let s1 := (waveJobs inp.rows).foldl (waveJob inp.fetch) initRS
  let scanOut := aerisScan inp.fetch inp.aerisPairs s1 []
  let s3 := { scanOut.2 with aeris := scanOut.1.map AerisItem.df }
  let s4 := pageRetryLoop inp.fetch 100 s3
  let al := aerisRetryLoop inp.fetch aerisFuel ⟨s4, 0, false⟩
  { rs := al.s, aerisDone := al.done,
    out := writeBlock al.s.wunder al.s.gov al.s.com al.s.aeris }

/-- The worker cap of the initial wave: `ThreadPoolExecutor(max_workers=12)`
(line 639). -/
def maxWorkers : Nat := 12

/-- State of the worker pool: submitted-but-not-started, running, and
finished jobs (identified by submission index). -/
structure PoolState where
  pending : List Nat
  running : List Nat
  finished : List Nat
deriving DecidableEq

/-- Scheduling semantics of `ThreadPoolExecutor` with a worker cap (the pool
itself is Python standard-library code; this transition system is its
documented contract): a pending job may start only while fewer than `cap`
jobs are running; a running job may finish at any time.  Jobs complete in any
order. -/
inductive PoolStep (cap : Nat) : PoolState → PoolState → Prop
  | start (j : Nat) (s : PoolState) (hj : j ∈ s.pending)
      (hcap : s.running.length < cap) :
      PoolStep cap s ⟨s.pending.erase j, s.running ++ [j], s.finished⟩
  | finish (j : Nat) (s : PoolState) (hj : j ∈ s.running) :
      PoolStep cap s ⟨s.pending, s.running.erase j, s.finished ++ [j]⟩

/-- States reachable by the pool from an initial state. -/
inductive PoolReach (cap : Nat) (init : PoolState) : PoolState → Prop
  | refl : PoolReach cap init init
  | step {s t : PoolState} : PoolReach cap init s → PoolStep cap s t →
      PoolReach cap init t

/-- The pool right after dispatch: all submitted jobs pending, none started. -/
def initPool (jobs : List Nat) : PoolState := ⟨jobs, [], []⟩

/-- The opaque selenium driver object, tagged with the browser it drives. -/
structure Driver where
  browser : String
deriving DecidableEq

/-- Line 103-105: `agents = ['chrome', 'firefox', 'ie']` indexed by
`random.randint(0, 2)`. -/
def agentName : Fin 3 → String
  | 0 => "chrome"
  | 1 => "firefox"
  | 2 => "ie"

/-- `initialize_driver` (93-130).  `rng` models the `random.randint(0,2)`
draw used when `browser == 'randomize'`; `chromeOk` models whether the
`webdriver.Chrome(...)` construction succeeds.  The `match browser:` assigns
the local `driver` only in the successful 'chrome' case: 'firefox' and 'ie'
are `pass`, the wildcard raises `ValueError`, and every exception in the try
is caught and merely logged (126-128) — so the final `return driver`
(line 130) raises `UnboundLocalError` whenever `driver` was never assigned. -/
def init_driver (browser : String) (rng : Fin 3) (chromeOk : Bool) :
    Except String Driver :=
  let b := if browser = "randomize" then agentName rng else browser
  let driverAssigned : Option Driver :=
    if b = "chrome" then (if chromeOk then some ⟨"chrome"⟩ else none)
    else if b = "firefox" then none
    else if b = "ie" then none
    else none
  match driverAssigned with
  | some d => Except.ok d
  | none => Except.error "UnboundLocalError"

/-- Events on the per-invocation rendering session. -/
inductive REv where
  | acquireDriver
  | releaseDriver
deriving DecidableEq

/-- Resource-event trace of one `scrape_wunderground` invocation (447-488):
`initialize_driver('chrome')` on line 464 acquires a browser session when the
Chrome construction succeeds (`driverOk`); the file contains no
`driver.quit()` or `driver.close()` call anywhere, so no release event can be
emitted on any path — `o` is the fetch outcome of the invocation (success,
error or timeout) and does not influence the trace. -/
def scrapeWundergroundEvents (driverOk : Bool) (o : Option Nat) : List REv :=
  match o with
  | some _ => if driverOk then [REv.acquireDriver] else []
  | none => if driverOk then [REv.acquireDriver] else []

/-- A fetch oracle under which every request of every job raises. -/
def alwaysFail : String → Nat → Option Nat := fun _ _ => none

/-- Aeris retry loop entered with one persistently failing endpoint in
`FAILED_URLS_AERIS` and `rescrape_count = 0` (its value on line 696). -/
def c2Start : ALoop :=
  ⟨{ initRS with failedAeris := [PyVal.tup "u" "L" Src.aeris] }, 0, false⟩

/-- Run input: one roster row whose page jobs all succeed, and one Aeris
endpoint "u" that fails on the first attempt and succeeds with a 3-row table
on every retry. -/
def inp3 : Input :=
  ⟨[⟨"a", "b", "c", "L1"⟩], [("u", "L2")],
   fun url k => if url = "u" then (if k = 0 then none else some 3) else some 1⟩

/-- Run input: one roster row whose Wunderground job fails on every attempt
while the other page jobs succeed; no Aeris jobs. -/
def inp5 : Input :=
  ⟨[⟨"a", "b", "c", "L"⟩], [],
   fun url _ => if url = "a" then none else some 1⟩

/-- Run input: one roster row and one Aeris pair, every fetch succeeding. -/
def inp7 : Input :=
  ⟨[⟨"a", "b", "c", "L"⟩], [("d", "L")], fun _ _ => some 1⟩

/-! ### Bookkeeping lemmas about the run state -/

@[simp] theorem bump_failedUrls (s : RS) (u : String) :
    (s.bump u).failedUrls = s.failedUrls := rfl

@[simp] theorem bump_failedAeris (s : RS) (u : String) :
    (s.bump u).failedAeris = s.failedAeris := rfl

@[simp] theorem bump_trace (s : RS) (u : String) :
    (s.bump u).trace = s.trace := rfl

@[simp] theorem snap_failedUrls (s : RS) : s.snap.failedUrls = s.failedUrls := rfl

@[simp] theorem snap_failedAeris (s : RS) : s.snap.failedAeris = s.failedAeris := rfl

@[simp] theorem snap_attempts (s : RS) : s.snap.attempts = s.attempts := rfl

@[simp] theorem snap_trace (s : RS) :
    s.snap.trace = (s.failedUrls, s.failedAeris) :: s.trace := rfl

@[simp] theorem appendDF_failedUrls (s : RS) (src : Src) (df : DF) :
    (RS.appendDF s src df).failedUrls = s.failedUrls := by cases src <;> rfl

@[simp] theorem appendDF_failedAeris (s : RS) (src : Src) (df : DF) :
    (RS.appendDF s src df).failedAeris = s.failedAeris := by cases src <;> rfl

@[simp] theorem appendDF_attempts (s : RS) (src : Src) (df : DF) :
    (RS.appendDF s src df).attempts = s.attempts := by cases src <;> rfl

@[simp] theorem appendDF_trace (s : RS) (src : Src) (df : DF) :
    (RS.appendDF s src df).trace = s.trace := by cases src <;> rfl

theorem waveJob_attempts (f : String → Nat → Option Nat) (s : RS)
    (j : Src × String × String) (u : String) :
    (waveJob f s j).attempts u
      = if u = j.2.1 then s.attempts u + 1 else s.attempts u := by
  simp [waveJob, RS.bump]

/-! ### Absence of an endpoint from the trackers -/

theorem noUrl_nil (u : String) : noUrl u [] := by
  intro l s h
  cases h

theorem noUrl_cons_of (u : String) {e : PyVal} {rest : List PyVal}
    (h : noUrl u (e :: rest)) : noUrl u rest := by
  intro l s hm
  exact h l s (List.mem_cons_of_mem e hm)

theorem noUrl_head_ne {u url loc : String} {src : Src} {rest : List PyVal}
    (h : noUrl u (PyVal.tup url loc src :: rest)) : url ≠ u := by
  intro he
  exact h loc src (he ▸ List.mem_cons_self _ _)

theorem noUrl_recordFailure {u : String} {t : List PyVal} {url loc : String}
    {src : Src} (h : noUrl u t) (hne : url ≠ u) :
    noUrl u (recordFailure t url loc src) := by
  intro l s hm
  unfold recordFailure at hm
  split at hm
  · exact h l s hm
  · rcases List.mem_append.mp hm with h1 | h1
    · exact h l s h1
    · have h2 := List.mem_singleton.mp h1
      injection h2 with h3 h4 h5
      exact hne h3.symm

theorem noUrl_recordFailureAeris {u : String} {fu fa : List PyVal}
    {url loc : String} (h : noUrl u fa) (hne : url ≠ u) :
    noUrl u (recordFailureAeris fu fa url loc) := by
  intro l s hm
  unfold recordFailureAeris at hm
  split at hm
  · exact h l s hm
  · rcases List.mem_append.mp hm with h1 | h1
    · exact h l s h1
    · have h2 := List.mem_singleton.mp h1
      injection h2 with h3 h4 h5
      exact hne h3.symm

theorem Inv_snap {u : String} {s : RS} (h : Inv u s) : Inv u s.snap := by
  obtain ⟨h1, h2, h3⟩ := h
  refine ⟨h1, h2, ?_⟩
  intro p hp
  rcases List.mem_cons.mp hp with hp | hp
  · subst hp
    exact ⟨h1, h2⟩
  · exact h3 p hp

theorem Inv_appendDF {u : String} {s : RS} (src : Src) (df : DF) (h : Inv u s) :
    Inv u (RS.appendDF s src df) := by
  cases src <;> exact h

theorem Inv_setFailedUrls {u : String} {s : RS} {t : List PyVal} (h : Inv u s)
    (ht : noUrl u t) : Inv u { s with failedUrls := t } :=
  ⟨ht, h.2.1, h.2.2⟩

theorem Inv_setFailedAeris {u : String} {s : RS} {t : List PyVal} (h : Inv u s)
    (ht : noUrl u t) : Inv u { s with failedAeris := t } :=
  ⟨h.1, ht, h.2.2⟩

theorem Inv_initRS (u : String) : Inv u initRS :=
  ⟨noUrl_nil u, noUrl_nil u, fun p hp => absurd hp (List.not_mem_nil p)⟩

/-! ### Lemmas about the output-writing block -/

theorem saveOne_false_err {dfs : List DF} (h : (saveOne dfs).1 = false) :
    (saveOne dfs).2.isSome = true := by
  cases hc : pdConcat dfs with
  | error e => simp [saveOne, hc]
  | ok d =>
    cases hw : d.wsColumn with
    | error e => simp [saveOne, hc, hw]
    | ok c => simp [saveOne, hc, hw] at h

theorem writeGo_err (w : WriteOut) (e : String) (h : w.err = some e) :
    ∀ l, writeGo l w = w := by
  intro l
  induction l with
  | nil => rfl
  | cons p rest ih =>
    obtain ⟨src, dfs⟩ := p
    simp only [writeGo, h]

theorem writeGo_initial_segment :
    ∀ (l : List (Src × List DF)) (w : WriteOut), w.err = none →
      ∃ rest, (writeGo l w).files ++ rest = w.files ++ l.map (fun p => p.1) := by
  intro l
  induction l with
  | nil =>
    intro w hw
    exact ⟨[], by simp [writeGo]⟩
  | cons p rest ih =>
    intro w hw
    obtain ⟨src, dfs⟩ := p
    simp only [writeGo, hw, List.map_cons]
    cases hs : (saveOne dfs).2 with
    | none =>
      have hwrote : (saveOne dfs).1 = true := by
        by_contra hb
        have h2 := saveOne_false_err (Bool.not_eq_true _ ▸ hb)
        rw [hs] at h2
        simp at h2
      simp only [hwrote, if_true]
      obtain ⟨r, hr⟩ := ih ⟨w.files ++ [src], none⟩ rfl
      refine ⟨r, ?_⟩
      rw [hr]
      simp
    | some e =>
      rw [writeGo_err _ e rfl rest]
      cases hwrote : (saveOne dfs).1 with
      | true => exact ⟨rest.map (fun p => p.1), by simp [hwrote]⟩
      | false => exact ⟨src :: rest.map (fun p => p.1), by simp [hwrote]⟩

/-! ### The claims -/

/-- Claim C1 (code defect): appending a failure for an endpoint already in the
tracker does not leave the tracker unchanged.  The dedup guard
`if url not in FAILED_URLS:` (lines 485, 521, 556) compares the url string
against the stored `(url, loc, source)` tuples, so it never fires and the
endpoint is appended again; the Aeris variant (616-617) additionally guards on
the wrong tracker and duplicates likewise. -/
theorem tracker_dedup_broken :
    recordFailure [PyVal.tup "u" "L" Src.wunderground] "u" "L" Src.wunderground
      = [PyVal.tup "u" "L" Src.wunderground, PyVal.tup "u" "L" Src.wunderground]
    ∧ (recordFailureAeris [] [PyVal.tup "u" "L" Src.aeris] "u" "L").count
        (PyVal.tup "u" "L" Src.aeris) = 2 := by
  decide

/-- Claim C3 (code defect), evaluated at the failing input: the Aeris endpoint
"u" fails initially and succeeds on retry with a 3-row table; the table is
appended to the accumulated results wrapped in a Python list (line 703), so
the `isinstance(x, pd.DataFrame)` filter of line 734 drops it — the final
Aeris output excludes the retried job's rows (here `pd.concat` is even left
with nothing and no Aeris file is written), contradicting the claim that every
retry success is included in the final concatenated output. -/
theorem aeris_retry_success_excluded :
    inp3.fetch "u" 1 = some 3
    ∧ AerisItem.pyList [⟨true, ["L2", "L2", "L2"]⟩] ∈ (fullRun inp3 5).rs.aeris
    ∧ Src.aeris ∉ (fullRun inp3 5).out.files
    ∧ (fullRun inp3 5).out.err.isSome = true := by
  decide

/-- Claim C4 counterexample: Wunderground has zero successful tables, so its
(empty) file is written and the station-count lookup then raises KeyError;
the Weather.gov, Weather.com and Aeris writes are never attempted, even though
each of them would succeed (third conjunct) — refuting the claim that each of
the four per-source writes is attempted regardless of earlier failures. -/
theorem write_failure_blocks_later_sources :
    (writeBlock [DF.empty] [⟨true, ["x"]⟩] [⟨true, ["y"]⟩]
        [AerisItem.df ⟨true, ["z"]⟩]).files = [Src.wunderground]
    ∧ Src.weatherGov ∉ (writeBlock [DF.empty] [⟨true, ["x"]⟩] [⟨true, ["y"]⟩]
        [AerisItem.df ⟨true, ["z"]⟩]).files
    ∧ saveOne [⟨true, ["x"]⟩] = (true, none) := by
  decide

/-- Claim C4 (amended): the four per-source writes share one try/except
(lines 713-741), so they are attempted in the fixed order Wunderground,
Weather.gov, Weather.com, Aeris and the first raised error skips every later
source: the written files always form an initial segment of that order. -/
theorem writes_abort_at_first_error (wu gov com : List DF) (ae : List AerisItem) :
    ∃ rest, (writeBlock wu gov com ae).files ++ rest
      = [Src.wunderground, Src.weatherGov, Src.weatherCom, Src.aeris] := by
  have h := writeGo_initial_segment
    [(Src.wunderground, wu), (Src.weatherGov, gov), (Src.weatherCom, com),
     (Src.aeris, aerisFilter ae)] ⟨[], none⟩ rfl
  simpa [writeBlock] using h

set_option maxRecDepth 8000 in
/-- Claim C5 counterexample: the Wunderground job of `inp5` fails on the
initial attempt and on all 100 retries, so zero Wunderground jobs ever
succeed (second conjunct: no accumulated table has the WS column) and its
endpoint is still in the tracker at the end — yet the Wunderground output
file IS written, because every failed job contributed an empty DataFrame and
`pd.concat` of a non-empty list of empty DataFrames succeeds.  This refutes
the claim that zero successes for a source means no file is written for it. -/
theorem zero_success_page_file_written :
    Src.wunderground ∈ (fullRun inp5 1).out.files
    ∧ ((fullRun inp5 1).rs.wunder.filter (fun d => d.hasWS)).length = 0
    ∧ (fullRun inp5 1).rs.failedUrls ≠ [] := by
  decide

/-- Claim C5 (amended): for a page-rendered source with zero successes the
results list is a non-empty list of empty DataFrames (one per failed attempt),
so `pd.concat` succeeds, the file is written, and only the subsequent
station-count lookup raises; only for the API source — whose failures
contribute nothing to its results list — does aggregation fail hard with
nothing written (`pd.concat` of an empty list). -/
theorem zero_success_aggregation (l : List DF) (hne : l ≠ [])
    (hfail : ∀ d ∈ l, d.hasWS = false) :
    (saveOne l).1 = true ∧ (saveOne l).2.isSome = true
    ∧ saveOne [] = (false, some "ValueError: No objects to concatenate") := by
  cases l with
  | nil => exact absurd rfl hne
  | cons d t =>
    have hany : (d :: t).any (fun d => d.hasWS) = false := by
      simp only [List.any_eq_false]
      intro x hx
      simp [hfail x hx]
    refine ⟨?_, ?_, rfl⟩
    · simp [saveOne, pdConcat, DF.wsColumn, hany]
    · simp [saveOne, pdConcat, DF.wsColumn, hany]

/-- Witness for zero_success_aggregation: one failed job's empty DataFrame. -/
theorem zero_success_aggregation_witness :
    (saveOne [DF.empty]).1 = true ∧ (saveOne [DF.empty]).2.isSome = true
    ∧ saveOne [] = (false, some "ValueError: No objects to concatenate") :=
  zero_success_aggregation [DF.empty] (by decide) (by decide)

/-- Claim C8 counterexample: a successful page-job invocation acquires a
rendering session and terminates without releasing it, refuting the claim
that the session is released on every exit path. -/
theorem driver_leak_on_success_path :
    scrapeWundergroundEvents true (some 5) = [REv.acquireDriver]
    ∧ REv.releaseDriver ∉ scrapeWundergroundEvents true (some 5) := by
  decide

/-- Claim C8 (amended): no exit path of a page-job invocation ever releases
the rendering session — the program contains no driver.quit()/driver.close()
call, so success, error and timeout paths all leave the session acquired. -/
theorem driver_never_released (driverOk : Bool) (o : Option Nat) :
    REv.releaseDriver ∉ scrapeWundergroundEvents driverOk o := by
  cases o <;> cases driverOk <;> simp [scrapeWundergroundEvents]

/-- Claim C10 counterexample: 'randomize' is a browser argument other than
'chrome', yet initialize_driver returns a driver object for it when the
random draw selects 'chrome' (index 0) and the Chrome construction
succeeds. -/
theorem randomize_may_return_driver :
    init_driver "randomize" 0 true = Except.ok ⟨"chrome"⟩
    ∧ "randomize" ≠ "chrome" :=
  ⟨rfl, by decide⟩

/-- Claim C10 (amended): for every browser argument other than 'chrome' and
'randomize' — including 'firefox' and 'ie', which the docstring documents as
supported, and any unsupported name — the local driver variable is never
assigned, so initialize_driver raises (UnboundLocalError at the final
`return driver`) instead of returning a driver object; 'randomize' instead
resolves to a random browser first and so may return a driver. -/
theorem non_chrome_non_randomize_raises (b : String) (rng : Fin 3)
    (chromeOk : Bool) (h1 : b ≠ "chrome") (h2 : b ≠ "randomize") :
    init_driver b rng chromeOk = Except.error "UnboundLocalError" := by
  simp [init_driver, h1, h2]

/-- Witness for non_chrome_non_randomize_raises at browser = 'firefox'. -/
theorem non_chrome_non_randomize_raises_witness :
    init_driver "firefox" 0 true = Except.error "UnboundLocalError" :=
  non_chrome_non_randomize_raises "firefox" 0 true (by decide) (by decide)

theorem aerisRetryLoop_stuck :
    ∀ (n : Nat) (a : ALoop), a.count = 0 →
      a.s.failedAeris = [PyVal.tup "u" "L" Src.aeris] →
      PyVal.str "u" ∉ a.s.failedUrls →
      (aerisRetryLoop alwaysFail n a).done = a.done
      ∧ (aerisRetryLoop alwaysFail n a).s.failedAeris
          = [PyVal.tup "u" "L" Src.aeris]
      ∧ (aerisRetryLoop alwaysFail n a).count = 0 := by
  intro n
  induction n with
  | zero =>
    intro a h1 h2 h3
    exact ⟨rfl, h2, h1⟩
  | succ n ih =>
    intro a h1 h2 h3
    have hlt : a.count < 100 := by rw [h1]; decide
    simp only [aerisRetryLoop, h2, if_pos hlt]
    exact ih _ h1
      (by simp [aerisScan, alwaysFail, recordFailureAeris, h3])
      (by simp [aerisScan, alwaysFail, recordFailureAeris, h3])

/-- Claim C2 (code defect): the Aeris retry loop's guard is
`rescrape_count < 100` but `rescrape_count` is never incremented inside that
loop (contrast line 672 in the page loop), so with one persistently failing
Aeris endpoint the loop never exits: after any number `n` of iterations the
guard's counter is still 0 and the tracker still holds the endpoint
(`done = false` means the `while` condition never became false — the model
merely stops unrolling).  This refutes the claim that the Aeris retry loop
terminates after at most 100 iterations. -/
theorem aeris_retry_loop_never_exits (n : Nat) :
    (aerisRetryLoop alwaysFail n c2Start).done = false
    ∧ (aerisRetryLoop alwaysFail n c2Start).s.failedAeris
        = [PyVal.tup "u" "L" Src.aeris]
    ∧ (aerisRetryLoop alwaysFail n c2Start).count = 0 := by
  have h := aerisRetryLoop_stuck n c2Start rfl rfl (by decide)
  exact ⟨h.1, h.2.1, h.2.2⟩

/-- Claim C6: any error raised inside a scrape function's try block is
contained: the page scrape function returns the failure outcome (the empty
DataFrame) together with the tracker extended by its job, rather than
re-raising; and a failing Aeris request likewise contributes nothing to the
return list while its job is appended to the Aeris failure tracker. -/
theorem scrape_errors_contained (src : Src) (tracker : List PyVal)
    (url loc : String) (o : Option Nat) (e : String)
    (f : String → Nat → Option Nat) (s : RS) (aurl aloc : String)
    (hbody : scrapePageBody loc o = Except.error e)
    (hstr : PyVal.str url ∉ tracker)
    (haer : f aurl (s.attempts aurl) = none)
    (hstrA : PyVal.str aurl ∉ s.failedUrls) :
    scrapePage src tracker url loc o
      = (DF.empty, tracker ++ [PyVal.tup url loc src])
    ∧ PyVal.tup url loc src ∈ (scrapePage src tracker url loc o).2
    ∧ (aerisScan f [(aurl, aloc)] s []).1 = []
    ∧ PyVal.tup aurl aloc Src.aeris
        ∈ (aerisScan f [(aurl, aloc)] s []).2.failedAeris := by
  have ho : o = none := by
    cases o with
    | none => rfl
    | some n => simp [scrapePageBody] at hbody
  subst ho
  have h1 : scrapePage src tracker url loc none
      = (DF.empty, tracker ++ [PyVal.tup url loc src]) := by
    simp [scrapePage, scrapePageBody, recordFailure, hstr]
  refine ⟨h1, ?_, ?_, ?_⟩
  · rw [h1]
    simp
  · simp [aerisScan, haer]
  · simp [aerisScan, haer, recordFailureAeris, hstrA]

/-- Witness for scrape_errors_contained: a Wunderground job and an Aeris job
that both raise, starting from empty trackers. -/
theorem scrape_errors_contained_witness :
    scrapePage Src.wunderground [] "u" "L" none
      = (DF.empty, [] ++ [PyVal.tup "u" "L" Src.wunderground])
    ∧ PyVal.tup "u" "L" Src.wunderground
        ∈ (scrapePage Src.wunderground [] "u" "L" none).2
    ∧ (aerisScan alwaysFail [("v", "M")] initRS []).1 = []
    ∧ PyVal.tup "v" "M" Src.aeris
        ∈ (aerisScan alwaysFail [("v", "M")] initRS []).2.failedAeris :=
  scrape_errors_contained Src.wunderground [] "u" "L" none "ScrapingError"
    alwaysFail initRS "v" "M" rfl (by decide) rfl (by decide)

/-- Claim C9: in the transition system modelling
`ThreadPoolExecutor(max_workers=12)` (line 639) — a pending job may start
only while fewer than `maxWorkers` jobs are running — every state reachable
from the dispatch of any job list has at most 12 jobs simultaneously in the
running state. -/
theorem worker_cap_invariant (jobs : List Nat) (s : PoolState)
    (h : PoolReach maxWorkers (initPool jobs) s) :
    s.running.length ≤ maxWorkers := by
  induction h with
  | refl => simp [initPool, maxWorkers]
  | step hr hst ih =>
    cases hst with
    | start j _ hj hcap => simpa using hcap
    | finish j _ hj =>
      exact le_trans (List.Sublist.length_le (List.erase_sublist _ _)) ih

/-- Witness for worker_cap_invariant: the state reached after starting two of
three dispatched jobs. -/
theorem worker_cap_invariant_witness :
    (⟨[2], [0, 1], []⟩ : PoolState).running.length ≤ maxWorkers :=
  worker_cap_invariant [0, 1, 2] ⟨[2], [0, 1], []⟩
    (PoolReach.step
      (PoolReach.step PoolReach.refl
        (PoolStep.start 0 (initPool [0, 1, 2]) (by decide) (by decide)))
      (PoolStep.start 1 ⟨[1, 2], [0], []⟩ (by decide) (by decide)))

@[simp] theorem scrapePage_snd_some (src : Src) (t : List PyVal) (url loc : String)
    (n : Nat) : (scrapePage src t url loc (some n)).2 = t := rfl

@[simp] theorem scrapePage_snd_none (src : Src) (t : List PyVal) (url loc : String) :
    (scrapePage src t url loc none).2 = recordFailure t url loc src := rfl

theorem bump_attempts (s : RS) (url v : String) :
    (s.bump url).attempts v
      = if v = url then s.attempts v + 1 else s.attempts v := rfl

theorem waveJob_inv {f : String → Nat → Option Nat} {u : String}
    (hu : f u 0 ≠ none) (s : RS) (j : Src × String × String)
    (hInv : Inv u s) (hfirst : j.2.1 = u → s.attempts u = 0) :
    Inv u (waveJob f s j) := by
  simp only [waveJob]
  apply Inv_snap
  apply Inv_appendDF
  apply Inv_setFailedUrls hInv
  cases hfo : f j.2.1 (s.attempts j.2.1) with
  | some n => simpa using hInv.1
  | none =>
    have hne : j.2.1 ≠ u := by
      intro he
      rw [he, hfirst he] at hfo
      exact hu hfo
    simp only [scrapePage_snd_none, bump_failedUrls]
    exact noUrl_recordFailure hInv.1 hne

theorem waveFold_inv {f : String → Nat → Option Nat} {u : String}
    (hu : f u 0 ≠ none) :
    ∀ (jobs : List (Src × String × String)) (s : RS),
      Inv u s →
      List.count u (jobs.map (fun j => j.2.1)) + s.attempts u ≤ 1 →
      Inv u (jobs.foldl (waveJob f) s)
      ∧ (jobs.foldl (waveJob f) s).attempts u
          = s.attempts u + List.count u (jobs.map (fun j => j.2.1)) := by
  intro jobs
  induction jobs with
  | nil =>
    intro s h _
    exact ⟨h, by simp⟩
  | cons j rest ih =>
    intro s h hc
    simp only [List.map_cons, List.foldl_cons] at hc ⊢
    by_cases hj : j.2.1 = u
    · rw [hj, List.count_cons_self] at hc ⊢
      have h0 : s.attempts u = 0 := by omega
      have hr0 : List.count u (rest.map (fun j => j.2.1)) = 0 := by omega
      have hinv1 : Inv u (waveJob f s j) := waveJob_inv hu s j h (fun _ => h0)
      have hat : (waveJob f s j).attempts u = s.attempts u + 1 := by
        rw [waveJob_attempts]
        simp [hj]
      obtain ⟨h1, h2⟩ := ih (waveJob f s j) hinv1 (by rw [hat]; omega)
      refine ⟨h1, ?_⟩
      rw [h2, hat]
      omega
    · have hne : u ≠ j.2.1 := fun he => hj he.symm
      rw [List.count_cons_of_ne hne] at hc ⊢
      have hinv1 : Inv u (waveJob f s j) :=
        waveJob_inv hu s j h (fun he => absurd he hj)
      have hat : (waveJob f s j).attempts u = s.attempts u := by
        rw [waveJob_attempts, if_neg hne]
      obtain ⟨h1, h2⟩ := ih (waveJob f s j) hinv1 (by rw [hat]; exact hc)
      exact ⟨h1, by rw [h2, hat]⟩

theorem aerisScan_inv_first {f : String → Nat → Option Nat} {u : String}
    (hu : f u 0 ≠ none) :
    ∀ (pairs : List (String × String)) (s : RS) (acc : List DF),
      Inv u s →
      List.count u (pairs.map (fun p => p.1)) + s.attempts u ≤ 1 →
      Inv u (aerisScan f pairs s acc).2
      ∧ (aerisScan f pairs s acc).2.attempts u
          = s.attempts u + List.count u (pairs.map (fun p => p.1)) := by
  intro pairs
  induction pairs with
  | nil =>
    intro s acc h _
    exact ⟨h, by simp [aerisScan]⟩
  | cons p rest ih =>
    intro s acc h hc
    obtain ⟨url, loc⟩ := p
    simp only [List.map_cons] at hc ⊢
    by_cases hj : url = u
    · subst hj
      rw [List.count_cons_self] at hc ⊢
      have h0 : s.attempts url = 0 := by omega
      have hr0 : List.count url (rest.map (fun p => p.1)) = 0 := by omega
      cases hfo : f url (s.attempts url) with
      | none => rw [h0] at hfo; exact absurd hfo hu
      | some n =>
        simp only [aerisScan, hfo]
        have hat : ((s.bump url).snap).attempts url = s.attempts url + 1 := by
          rw [snap_attempts, bump_attempts]
          simp
        obtain ⟨h1, h2⟩ := ih ((s.bump url).snap)
          (acc ++ [⟨true, List.replicate n loc⟩]) (Inv_snap h)
          (by rw [hat]; omega)
        refine ⟨h1, ?_⟩
        rw [h2, hat]
        omega
    · have hne : u ≠ url := fun he => hj he.symm
      rw [List.count_cons_of_ne hne] at hc ⊢
      cases hfo : f url (s.attempts url) with
      | some n =>
        simp only [aerisScan, hfo]
        have hat : ((s.bump url).snap).attempts u = s.attempts u := by
          rw [snap_attempts, bump_attempts, if_neg hne]
        obtain ⟨h1, h2⟩ := ih ((s.bump url).snap)
          (acc ++ [⟨true, List.replicate n loc⟩]) (Inv_snap h)
          (by rw [hat]; exact hc)
        exact ⟨h1, by rw [h2, hat]⟩
      | none =>
        simp only [aerisScan, hfo]
        have hInv2 : Inv u ({ s.bump url with
            failedAeris := recordFailureAeris (s.bump url).failedUrls
              (s.bump url).failedAeris url loc }).snap :=
          Inv_snap (Inv_setFailedAeris h
            (noUrl_recordFailureAeris h.2.1 (fun he => hj he)))
        have hat : (({ s.bump url with
            failedAeris := recordFailureAeris (s.bump url).failedUrls
              (s.bump url).failedAeris url loc }).snap).attempts u
            = s.attempts u := by
          rw [snap_attempts]
          show (s.bump url).attempts u = s.attempts u
          rw [bump_attempts, if_neg hne]
        obtain ⟨h1, h2⟩ := ih _ acc hInv2 (by rw [hat]; exact hc)
        exact ⟨h1, by rw [h2, hat]⟩

theorem aerisScan_inv_ne (f : String → Nat → Option Nat) {u : String} :
    ∀ (pairs : List (String × String)) (s : RS) (acc : List DF),
      (∀ p ∈ pairs, p.1 ≠ u) → Inv u s →
      Inv u (aerisScan f pairs s acc).2 := by
  intro pairs
  induction pairs with
  | nil =>
    intro s acc _ h
    exact h
  | cons p rest ih =>
    intro s acc hne h
    obtain ⟨url, loc⟩ := p
    have hne1 : url ≠ u := hne (url, loc) (List.mem_cons_self _ _)
    have hne2 : ∀ q ∈ rest, q.1 ≠ u := fun q hq => hne q (List.mem_cons_of_mem _ hq)
    cases hfo : f url (s.attempts url) with
    | some n =>
      simp only [aerisScan, hfo]
      exact ih _ _ hne2 (Inv_snap h)
    | none =>
      simp only [aerisScan, hfo]
      exact ih _ _ hne2
        (Inv_snap (Inv_setFailedAeris h (noUrl_recordFailureAeris h.2.1 hne1)))

theorem pageRescrapeOne_inv (f : String → Nat → Option Nat) {u : String}
    (s : RS) (url loc : String) (src : Src) (h : Inv u s) (hne : url ≠ u) :
    Inv u (pageRescrapeOne f s url loc src) := by
  simp only [pageRescrapeOne]
  apply Inv_appendDF
  apply Inv_setFailedUrls h
  cases hfo : f url (s.attempts url) with
  | some n => simpa using h.1
  | none =>
    simp only [scrapePage_snd_none, bump_failedUrls]
    exact noUrl_recordFailure h.1 hne

theorem pageRetryLoop_inv (f : String → Nat → Option Nat) {u : String} :
    ∀ (n : Nat) (s : RS), Inv u s → Inv u (pageRetryLoop f n s) := by
  intro n
  induction n with
  | zero =>
    intro s h
    exact h
  | succ n ih =>
    intro s h
    cases hfa : s.failedUrls with
    | nil =>
      simp only [pageRetryLoop, hfa]
      exact h
    | cons e rest =>
      simp only [pageRetryLoop, hfa]
      have hrest : noUrl u rest := noUrl_cons_of u (hfa ▸ h.1)
      have h1 : Inv u { s with failedUrls := rest } := Inv_setFailedUrls h hrest
      cases e with
      | str v => exact ih _ (Inv_snap h1)
      | tup url loc src =>
        have hne : url ≠ u := noUrl_head_ne (hfa ▸ h.1)
        cases src with
        | wunderground =>
          exact ih _ (Inv_snap (pageRescrapeOne_inv f _ url loc _ h1 hne))
        | weatherGov =>
          exact ih _ (Inv_snap (pageRescrapeOne_inv f _ url loc _ h1 hne))
        | weatherCom =>
          exact ih _ (Inv_snap (pageRescrapeOne_inv f _ url loc _ h1 hne))
        | aeris => exact ih _ (Inv_snap h1)

theorem aerisRetryLoop_inv (f : String → Nat → Option Nat) {u : String} :
    ∀ (n : Nat) (a : ALoop), Inv u a.s → Inv u (aerisRetryLoop f n a).s := by
  intro n
  induction n with
  | zero =>
    intro a h
    exact h
  | succ n ih =>
    intro a h
    cases hfa : a.s.failedAeris with
    | nil =>
      simp only [aerisRetryLoop, hfa]
      exact h
    | cons e rest =>
      simp only [aerisRetryLoop, hfa]
      by_cases hlt : a.count < 100
      · rw [if_pos hlt]
        have hrest : noUrl u rest := noUrl_cons_of u (hfa ▸ h.2.1)
        have h1 : Inv u { a.s with failedAeris := rest } := Inv_setFailedAeris h hrest
        cases e with
        | str v => exact ih _ h1
        | tup url loc src =>
          have hne : url ≠ u := noUrl_head_ne (hfa ▸ h.2.1)
          have h2 : Inv u (aerisScan f [(url, loc)]
              { a.s with failedAeris := rest } []).2 :=
            aerisScan_inv_ne f [(url, loc)] _ []
              (by
                intro q hq
                have hq2 := List.mem_singleton.mp hq
                subst hq2
                exact hne) h1
          exact ih _ h2
      · rw [if_neg hlt]
        exact h

/-- Claim C7: a job whose first fetch attempt succeeds never has its endpoint
in either failure tracker at any point of the run — both trackers and every
recorded tracker snapshot are free of the endpoint (the hypotheses say the
endpoint belongs to the run's job list, endpoints are distinct across jobs,
and its first fetch succeeds). -/
theorem first_attempt_success_never_tracked (inp : Input) (fuel : Nat)
    (u : String) (hmem : u ∈ allUrls inp) (hnodup : (allUrls inp).Nodup)
    (hsucc : inp.fetch u 0 ≠ none) :
    Inv u (fullRun inp fuel).rs := by
  have hcount : List.count u (allUrls inp) ≤ 1 :=
    List.nodup_iff_count_le_one.mp hnodup u
  have hsplit : List.count u (waveUrls inp)
      + List.count u (inp.aerisPairs.map (fun p => p.1)) ≤ 1 := by
    simpa [allUrls, List.count_append] using hcount
  have hwu : List.count u ((waveJobs inp.rows).map (fun j => j.2.1))
      = List.count u (waveUrls inp) := rfl
  have hz : initRS.attempts u = 0 := rfl
  have h1 := waveFold_inv hsucc (waveJobs inp.rows) initRS (Inv_initRS u)
    (by rw [hwu]; omega)
  have h2 := aerisScan_inv_first hsucc inp.aerisPairs
    ((waveJobs inp.rows).foldl (waveJob inp.fetch) initRS) [] h1.1
    (by rw [h1.2, hwu]; omega)
  have h4 := pageRetryLoop_inv inp.fetch 100
    { (aerisScan inp.fetch inp.aerisPairs
        ((waveJobs inp.rows).foldl (waveJob inp.fetch) initRS) []).2 with
      aeris := (aerisScan inp.fetch inp.aerisPairs
        ((waveJobs inp.rows).foldl (waveJob inp.fetch) initRS) []).1.map
          AerisItem.df }
    h2.1
  exact aerisRetryLoop_inv inp.fetch fuel ⟨_, 0, false⟩ h4

/-- Witness for first_attempt_success_never_tracked: in the all-success run
`inp7`, the endpoint "b" (whose first attempt succeeds) is not in the page
failure tracker at the end of the run. -/
theorem first_attempt_success_never_tracked_witness :
    PyVal.tup "b" "L" Src.weatherGov ∉ (fullRun inp7 1).rs.failedUrls :=
  (first_attempt_success_never_tracked inp7 1 "b" (by decide) (by decide)
    (by decide)).1 "L" Src.weatherGov

end Weather
